import Mathlib

/-!
Verification of the ZoomWebSocket client (src/ZoomWebSocket.py).

The Python class is shallowly embedded: every handler becomes a total Lean
function that returns the list of outbound REST effects it issues and the
list of log records it writes.  External, non-deterministic operations
(JSON parsing by json.loads, the HTTP session calls, the WebSocket send)
are supplied by an oracle record, so a theorem quantified over the oracle
covers every possible outcome of those operations.  Python exceptions are
modelled with Except: a try/except block becomes a match on the Except
value, and code whose exceptions are all caught internally becomes a total
function, which is exactly the no-crash guarantee of the source.
-/

namespace ZoomWS

/-- Parsed JSON values, the result type of json.loads. -/
inductive Json where
  | null
  | bool (b : Bool)
  | num (n : Int)
  | str (s : String)
  | arr (elems : List Json)
  | obj (fields : List (String × Json))

/-- Lookup of a key in the field list of a parsed JSON object (Python dict
lookup; parsed dicts have unique keys). -/
def lookupField : List (String × Json) → String → Option Json
  | [], _ => none
  | (k, v) :: rest, key => if k == key then some v else lookupField rest key

/-- Python d[key]: KeyError when the key is missing, TypeError when the
value is not a dict; both are exceptions, modelled as Except.error. -/
def Json.index : Json → String → Except Unit Json
  | .obj fields, key =>
    match lookupField fields key with
    | some v => .ok v
    | none => .error ()
  | _, _ => .error ()

/-- Python d.get(key): None when the key is missing; raises AttributeError
when the receiver is not a dict. -/
def Json.get : Json → String → Except Unit (Option Json)
  | .obj fields, key => .ok (lookupField fields key)
  | _, _ => .error ()

/-- Python d.get(key, default); raises AttributeError when the receiver is
not a dict. -/
def Json.getD : Json → String → Json → Except Unit Json
  | .obj fields, key, dflt => .ok ((lookupField fields key).getD dflt)
  | _, _, _ => .error ()

/-- Python equality between a parsed JSON value and a Python string: only a
JSON string can compare equal to a str. -/
def Json.eqStr : Json → String → Bool
  | .str s, t => s == t
  | _, _ => false

/-- Python equality between an Option-valued dict.get result and a string
(None == s is False in Python). -/
def optEqStr : Option Json → String → Bool
  | some j, s => j.eqStr s
  | none, _ => false

/-- Python x == 0 for a parsed JSON value: 0 == 0 and False == 0 hold in
Python; nothing else parsed from JSON equals the int 0. -/
def Json.pyEqZero : Json → Bool
  | .num n => n == 0
  | .bool b => b == false
  | _ => false

/-- Static configuration of the client: class attributes meeting_id (line
31) and participants (lines 34-38). -/
structure Config where
  meeting_id : String
  participants : List (String × String)

/-- The configuration literally present in the source. -/
def defaultConfig : Config :=
  { meeting_id := "83148128109",
    participants := [("IT Help Desk", "15554560001")] }

/-- Outbound REST calls issued through the requests session; one effect per
HTTP request attempted. -/
inductive Effect where
  | placeCall (meetingId : Json) (name phone : String)
  | fetchMetrics (meetingId : String)
  | endMeeting (meetingId : String)

/-- Records written through self.logger, one constructor per logger call
site in the source, carrying the formatted data. -/
inductive LogMsg where
  | moduleReceived (m : Option Json)
  | frameDump (j : Json)
  | parseOuterError
  | parseContentError
  | eventError
  | heartbeatResponse (success : Option Json)
  | participantLeft (user topic : Json)
  | zeroParticipants
  | leaveEventError
  | meetingEnded (meeting : Json)
  | meetingEndEventError
  | participantJoined (user topic : Json)
  | joinedEventError
  | meetingStarted (meeting : Json)
  | placingCalls
  | startedEventError
  | placingCall (phone name : String) (meeting : Json)
  | placeCallReturned
  | placeCallError
  | metricsOk (meetingId : String)
  | metricsHttpError
  | metricsException
  | endMeetingOk (meetingId : String)
  | endMeetingHttpError
  | endMeetingException
  | heartbeatSent
  | heartbeatNotConnected
  | heartbeatSendError
  | refreshingToken
  | newTokenAcquired
  | refreshFailed
  | tokenExpiresLogged
  | tokenFetchError

/-- Outcome of the session.patch call in place_call: the request either
raises or returns a response (the response body is only printed). -/
inductive PatchResult where
  | exn
  | resp

/-- Outcome of the session.get call in get_meeting_details: the request
either raises, or returns a status code and a body whose .json() decoding
may itself raise. -/
inductive MetricsResult where
  | exn
  | resp (status : Int) (body : Except Unit Json)

/-- Outcome of the session.put call in end_meeting. -/
inductive PutResult where
  | exn
  | resp (status : Int)

/-- Oracle supplying the outcome of every external operation: json.loads
(none = the string is malformed JSON) and the three HTTP calls. -/
structure Oracle where
  parseJson : String → Option Json
  patch : Json → String → String → PatchResult
  metrics : String → MetricsResult
  put : String → PutResult

/-- place_call (lines 248-279): logs the attempt, issues the PATCH request,
and catches any exception, logging it instead of raising. -/
def place_call (o : Oracle) (meeting_ID : Json) (name phone_number : String) :
    List Effect × List LogMsg :=
  match o.patch meeting_ID name phone_number with
  | .exn =>
    ([.placeCall meeting_ID name phone_number],
     [.placingCall phone_number name meeting_ID, .placeCallError])
  | .resp =>
    ([.placeCall meeting_ID name phone_number],
     [.placingCall phone_number name meeting_ID, .placeCallReturned])

/-- get_meeting_details (lines 281-304): issues the metrics GET, logs by
status code, returns the decoded body, and returns the empty dict after
logging when the request or the body decoding raises. -/
def get_meeting_details (o : Oracle) (meeting_id : String) :
    List Effect × List LogMsg × Json :=
  match o.metrics meeting_id with
  | .exn => ([.fetchMetrics meeting_id], [.metricsException], .obj [])
  | .resp status body =>
    match body with
    | .ok j =>
      ([.fetchMetrics meeting_id],
       [if status == 200 then .metricsOk meeting_id else .metricsHttpError], j)
    | .error _ =>
      ([.fetchMetrics meeting_id],
       [if status == 200 then .metricsOk meeting_id else .metricsHttpError,
        .metricsException], .obj [])

/-- end_meeting (lines 306-331): issues the status PUT, logs success on 204
and an error otherwise, returns the status code, and returns -1 after
logging when the request raises. -/
def end_meeting (o : Oracle) (meeting_id : String) :
    List Effect × List LogMsg × Int :=
  match o.put meeting_id with
  | .exn => ([.endMeeting meeting_id], [.endMeetingException], -1)
  | .resp status =>
    ([.endMeeting meeting_id],
     [if status == 204 then .endMeetingOk meeting_id else .endMeetingHttpError],
     status)

/-- Field extraction at the top of process_leave_event (lines 165-167); any
KeyError or TypeError is an exception caught by the enclosing try. -/
def extractLeaveFields (content : Json) : Except Unit (Json × Json × Json) := do
  let payload ← content.index "payload"
  let obj ← payload.index "object"
  let meeting ← obj.index "id"
  let participant ← obj.index "participant"
  let user ← participant.index "user_name"
  let topic ← obj.index "topic"
  pure (meeting, user, topic)

/-- process_leave_event (lines 157-177): on the target meeting, fetches the
meeting metrics, reads the participants field with default 0, and ends the
meeting when that count equals 0.  Every exception inside the body is
caught and logged. -/
def process_leave_event (cfg : Config) (o : Oracle) (content : Json) :
    List Effect × List LogMsg :=
  match extractLeaveFields content with
  | .error _ => ([], [.leaveEventError])
  | .ok (meeting, user, topic) =>
    if meeting.eqStr cfg.meeting_id then
      match get_meeting_details o cfg.meeting_id with
      | (dEffs, dLogs, details) =>
        match details.getD "participants" (.num 0) with
        | .error _ => (dEffs, .participantLeft user topic :: dLogs ++ [.leaveEventError])
        | .ok participant_count =>
          if participant_count.pyEqZero then
            match end_meeting o cfg.meeting_id with
            | (eEffs, eLogs, _) =>
              (dEffs ++ eEffs,
               .participantLeft user topic :: dLogs ++ .zeroParticipants :: eLogs)
          else
            (dEffs, .participantLeft user topic :: dLogs)
    else ([], [])

/-- Extraction of payload.object.id, shared by the end and started
handlers (lines 187 and 216). -/
def extractObjectId (content : Json) : Except Unit Json := do
  let payload ← content.index "payload"
  let obj ← payload.index "object"
  obj.index "id"

/-- process_meeting_end_event (lines 179-191): log-only. -/
def process_meeting_end_event (content : Json) : List Effect × List LogMsg :=
  match extractObjectId content with
  | .error _ => ([], [.meetingEndEventError])
  | .ok meeting => ([], [.meetingEnded meeting])

/-- process_participant_joined_event (lines 193-206): log-only. -/
def process_participant_joined_event (content : Json) : List Effect × List LogMsg :=
  match (do
      let payload ← content.index "payload"
      let obj ← payload.index "object"
      let participant ← obj.index "participant"
      let user ← participant.index "user_name"
      let topic ← obj.index "topic"
      pure (user, topic) : Except Unit (Json × Json)) with
  | .error _ => ([], [.joinedEventError])
  | .ok (user, topic) => ([], [.participantJoined user topic])

/-- process_meeting_started_event (lines 208-225): on the target meeting,
places one call per configured roster entry, in list order; place_call
catches its own failures, so the loop always completes. -/
def process_meeting_started_event (cfg : Config) (o : Oracle) (content : Json) :
    List Effect × List LogMsg :=
  match extractObjectId content with
  | .error _ => ([], [.startedEventError])
  | .ok meeting =>
    if meeting.eqStr cfg.meeting_id then
      match cfg.participants.map (fun p => place_call o meeting p.1 p.2) with
      | results =>
        ((results.map Prod.fst).flatten,
         .meetingStarted meeting :: .placingCalls :: (results.map Prod.snd).flatten)
    else ([], [.meetingStarted meeting])

/-- Dispatch on the inner event string (lines 141-152): content.get can
raise when content is not a dict, caught by the enclosing try; unknown
event strings fall through silently. -/
def dispatch_event (cfg : Config) (o : Oracle) (content : Json) :
    List Effect × List LogMsg :=
  match content.get "event" with
  | .error _ => ([], [.eventError])
  | .ok ev =>
    if optEqStr ev "meeting.participant_left" then
      process_leave_event cfg o content
    else if optEqStr ev "meeting.ended" then
      process_meeting_end_event content
    else if optEqStr ev "meeting.participant_joined" then
      process_participant_joined_event content
    else if optEqStr ev "meeting.started" then
      process_meeting_started_event cfg o content
    else ([], [])

/-- process_message (lines 117-155), the message router.  The outer
json.loads and the first dict access sit in a try whose except logs and
returns; a message frame re-parses the content string in a second guarded
try; a heartbeat frame logs the success flag.  A non-dict outer value makes
j.get raise inside the first try, producing the same logged parse error. -/
def process_message (cfg : Config) (o : Oracle) (message : String) :
    List Effect × List LogMsg :=
  match o.parseJson message with
  | none => ([], [.parseOuterError])
  | some (Json.obj fields) =>
    if optEqStr (lookupField fields "module") "message" then
      match lookupField fields "content" with
      | none =>
        ([], [.moduleReceived (lookupField fields "module"), .frameDump (.obj fields),
              .parseContentError])
      | some (Json.str s) =>
        match o.parseJson s with
        | none =>
          ([], [.moduleReceived (lookupField fields "module"), .frameDump (.obj fields),
                .parseContentError])
        | some content =>
          match dispatch_event cfg o content with
          | (effs, logs) =>
            (effs, .moduleReceived (lookupField fields "module") ::
                   .frameDump (.obj fields) :: logs)
      | some _ =>
        ([], [.moduleReceived (lookupField fields "module"), .frameDump (.obj fields),
              .parseContentError])
    else if optEqStr (lookupField fields "module") "heartbeat" then
      ([], [.moduleReceived (lookupField fields "module"), .frameDump (.obj fields),
            .heartbeatResponse (lookupField fields "success")])
    else
      ([], [.moduleReceived (lookupField fields "module"), .frameDump (.obj fields)])
  | some _ => ([], [.parseOuterError])

/-- Outcome of self.ws.send in send_heartbeat. -/
inductive SendResult where
  | exn
  | sent

/-- send_heartbeat (lines 106-115): when no WebSocket handle exists only a
warning is logged and nothing is sent; a raising send is caught and logged.
The boolean result records whether a send was attempted. -/
def send_heartbeat (hasWs : Bool) (send : SendResult) : Bool × List LogMsg :=
  if hasWs then
    match send with
    | .sent => (true, [.heartbeatSent])
    | .exn => (true, [.heartbeatSendError])
  else (false, [.heartbeatNotConnected])

/-- get_access_token (lines 66-94).  The oracle argument is the outcome of
the token exchange: some t means the POST returned 2xx with a body whose
access_token field (default empty string) is t; none means the request
raised or returned non-2xx, which the except clause turns into the empty
string. -/
def get_access_token (acquire : Option String) : String × List LogMsg :=
  match acquire with
  | some tok => (tok, [.tokenExpiresLogged])
  | none => ("", [.tokenFetchError])

/-- refresh_token (lines 96-104): stores the freshly acquired token only
when it is truthy (a non-empty string); otherwise keeps the previous one. -/
def refresh_token (current : String) (acquire : Option String) :
    String × List LogMsg :=
  match get_access_token acquire with
  | (new_token, gLogs) =>
    if new_token == "" then
      (current, .refreshingToken :: gLogs ++ [.refreshFailed])
    else
      (new_token, .refreshingToken :: gLogs ++ [.newTokenAcquired])

/-- ACCESS_TOKEN stored by the constructor (line 57): get_access_token is
called once and its value kept, the empty string when acquisition failed. -/
def init_access_token (acquire : Option String) : String :=
  (get_access_token acquire).1

/-- The stream endpoint URL built in run (line 380) by appending the token
to the literal prefix. -/
def streamUrl (token : String) : String :=
  "wss://ws.zoom.us/ws?subscriptionId=blahblahblah&access_token=" ++ token

/-- Events observable during one invocation of run: a scheduled refresh
firing with a given acquisition outcome, or a transport failure that makes
run_forever reconnect. -/
inductive RunEvent where
  | refresh (acquire : Option String)
  | transportFailure

/-- Reconnect URLs produced by run_forever: the WebSocketApp keeps the URL
it was constructed with, so every automatic reconnect reuses that same
URL; refresh events change ACCESS_TOKEN but not the URL. -/
def run_reconnect_urls (url : String) : List RunEvent → List String
  | [] => []
  | RunEvent.refresh _ :: rest => run_reconnect_urls url rest
  | RunEvent.transportFailure :: rest => url :: run_reconnect_urls url rest

/-- Connect URLs of one invocation of run (lines 374-389): the URL is built
once from the token current at entry, used for the initial connect and for
every reconnect. -/
def run_connect_urls (token0 : String) (events : List RunEvent) : List String :=
  streamUrl token0 :: run_reconnect_urls (streamUrl token0) events

/-- Connect URLs as the specification words them: every entry to the
Connecting state, the initial one and each reconnect after a transport
failure, obtains the credential current at that moment and embeds it in
the URL; refresh events update the credential through refresh_token. -/
def spec_connect_urls_from : String → List RunEvent → List String
  | _, [] => []
  | tok, RunEvent.refresh acq :: rest =>
    spec_connect_urls_from (refresh_token tok acq).1 rest
  | tok, RunEvent.transportFailure :: rest =>
    streamUrl tok :: spec_connect_urls_from tok rest

/-- Full spec-worded connect URL list, initial connect included. -/
def spec_connect_urls (token0 : String) (events : List RunEvent) : List String :=
  streamUrl token0 :: spec_connect_urls_from token0 events

/-- Number of transport failures, hence of reconnects, in an event list. -/
def countTransportFailures : List RunEvent → Nat
  | [] => 0
  | RunEvent.transportFailure :: rest => countTransportFailures rest + 1
  | RunEvent.refresh _ :: rest => countTransportFailures rest

/-- Whether an effect is the end-meeting PUT. -/
def Effect.isEndMeeting : Effect → Bool
  | .endMeeting _ => true
  | _ => false

/-- Number of end-meeting calls in an effect list. -/
def endMeetingCount (effs : List Effect) : Nat :=
  effs.countP Effect.isEndMeeting

/-- Event content of the shape the upstream sends, used to quantify over
frames: {event, payload: {object: {id, topic, participant: {user_name}}}}. -/
def mkEventContent (event : String) (id user topic : Json) : Json :=
  .obj [("event", .str event),
        ("payload", .obj [("object",
          .obj [("id", id), ("topic", topic),
                ("participant", .obj [("user_name", user)])])])]

/-- Concrete oracle: every parse fails, every PATCH succeeds, the metrics
GET raises, the PUT returns 204. -/
def oracleBase : Oracle :=
  { parseJson := fun _ => none,
    patch := fun _ _ _ => .resp,
    metrics := fun _ => .exn,
    put := fun _ => .resp 204 }

/-- Concrete oracle whose metrics fetch returns a body with participants
equal to 0. -/
def oracleZeroParticipants : Oracle :=
  { oracleBase with
    metrics := fun _ => .resp 200 (.ok (.obj [("participants", .num 0)])) }

/-- Concrete heartbeat response frame. -/
def hbFrame : Json := .obj [("module", .str "heartbeat"), ("success", .bool true)]

/-- Concrete oracle that parses the raw message hb to the heartbeat frame
and everything else to a parse failure. -/
def hbOracle : Oracle :=
  { oracleBase with
    parseJson := fun s => if s == "hb" then some hbFrame else none }

/-- Configuration with a two-entry roster, for the invite-order scenario. -/
def pairConfig : Config :=
  { meeting_id := "83148128109",
    participants := [("First Oncall", "15550000001"),
                     ("Second Oncall", "15550000002")] }

/-- Concrete oracle whose PATCH raises on the first roster entry of
pairConfig and succeeds on the second. -/
def failFirstOracle : Oracle :=
  { oracleBase with
    patch := fun _ name _ => if name == "First Oncall" then .exn else .resp }

/-- place_call issues exactly one PATCH effect, whatever the outcome of the
request: its try block catches every exception. -/
theorem place_call_fst (o : Oracle) (m : Json) (n p : String) :
    (place_call o m n p).1 = [Effect.placeCall m n p] := by
  cases h : o.patch m n p <;> simp [place_call, h]

/-- end_meeting issues exactly one PUT effect, whatever the outcome. -/
theorem end_meeting_fst (o : Oracle) (m : String) :
    (end_meeting o m).1 = [Effect.endMeeting m] := by
  cases h : o.put m <;> simp [end_meeting, h]

/-- Field extraction of the leave handler computed on a well-shaped frame. -/
theorem extractLeaveFields_mk (e : String) (mid user topic : Json) :
    extractLeaveFields (mkEventContent e mid user topic) = .ok (mid, user, topic) := rfl

/-- Object-id extraction computed on a well-shaped frame. -/
theorem extractObjectId_mk (e : String) (mid user topic : Json) :
    extractObjectId (mkEventContent e mid user topic) = .ok mid := rfl

/-- C1: for a meeting.participant_left frame whose meeting id equals the
configured target id, when the metrics fetch returns a body whose
participants field is the integer n, end_meeting is issued exactly once
when n = 0 and never when n > 0. -/
theorem leave_end_meeting_iff_zero (cfg : Config) (o : Oracle)
    (user topic : Json) (n : Int) (fields : List (String × Json))
    (hm : o.metrics cfg.meeting_id = .resp 200 (.ok (.obj fields)))
    (hp : lookupField fields "participants" = some (.num n)) :
    (n = 0 → endMeetingCount (process_leave_event cfg o
        (mkEventContent "meeting.participant_left" (.str cfg.meeting_id) user topic)).1 = 1)
    ∧ (0 < n → endMeetingCount (process_leave_event cfg o
        (mkEventContent "meeting.participant_left" (.str cfg.meeting_id) user topic)).1 = 0) := by
  constructor
  · rintro rfl
    cases hput : o.put cfg.meeting_id <;>
      simp [process_leave_event, extractLeaveFields_mk, Json.eqStr,
            get_meeting_details, hm, Json.getD, hp, Json.pyEqZero,
            end_meeting, hput, endMeetingCount, Effect.isEndMeeting,
            List.countP_cons, List.countP_append]
  · intro hn
    have hne : (n == 0) = false := by
      simp only [beq_eq_false_iff_ne, ne_eq]
      omega
    simp [process_leave_event, extractLeaveFields_mk, Json.eqStr,
          get_meeting_details, hm, Json.getD, hp, Json.pyEqZero, hne,
          endMeetingCount, Effect.isEndMeeting, List.countP_cons]

/-- Witness for C1 at the zero-participant oracle. -/
theorem leave_end_meeting_iff_zero_witness :
    endMeetingCount (process_leave_event defaultConfig oracleZeroParticipants
      (mkEventContent "meeting.participant_left" (Json.str defaultConfig.meeting_id)
        Json.null Json.null)).1 = 1 :=
  (leave_end_meeting_iff_zero defaultConfig oracleZeroParticipants Json.null Json.null 0
    [("participants", Json.num 0)] rfl rfl).1 rfl

/-- C9: when the metrics fetch raises, returns a body that fails to decode,
or returns a dict without a participants field, the leave handler reads the
count as 0 through dict.get and therefore issues end_meeting exactly once. -/
theorem leave_metrics_failure_ends (cfg : Config) (o : Oracle) (user topic : Json)
    (h : o.metrics cfg.meeting_id = .exn
       ∨ (∃ status e, o.metrics cfg.meeting_id = .resp status (.error e))
       ∨ (∃ status fields, o.metrics cfg.meeting_id = .resp status (.ok (.obj fields))
            ∧ lookupField fields "participants" = none)) :
    endMeetingCount (process_leave_event cfg o
      (mkEventContent "meeting.participant_left" (.str cfg.meeting_id) user topic)).1 = 1 := by
  rcases h with hm | ⟨status, e, hm⟩ | ⟨status, fields, hm, hf⟩
  · cases hput : o.put cfg.meeting_id <;>
      simp [process_leave_event, extractLeaveFields_mk, Json.eqStr,
            get_meeting_details, hm, Json.getD, lookupField, Json.pyEqZero,
            end_meeting, hput, endMeetingCount, Effect.isEndMeeting,
            List.countP_cons, List.countP_append]
  · cases hput : o.put cfg.meeting_id <;>
      simp [process_leave_event, extractLeaveFields_mk, Json.eqStr,
            get_meeting_details, hm, Json.getD, lookupField, Json.pyEqZero,
            end_meeting, hput, endMeetingCount, Effect.isEndMeeting,
            List.countP_cons, List.countP_append]
  · cases hput : o.put cfg.meeting_id <;>
      simp [process_leave_event, extractLeaveFields_mk, Json.eqStr,
            get_meeting_details, hm, Json.getD, hf, Json.pyEqZero,
            end_meeting, hput, endMeetingCount, Effect.isEndMeeting,
            List.countP_cons, List.countP_append]

/-- Witness for C9 at the raising metrics oracle. -/
theorem leave_metrics_failure_ends_witness :
    endMeetingCount (process_leave_event defaultConfig oracleBase
      (mkEventContent "meeting.participant_left" (Json.str defaultConfig.meeting_id)
        Json.null Json.null)).1 = 1 :=
  leave_metrics_failure_ends defaultConfig oracleBase Json.null Json.null (Or.inl rfl)

/-- C2: a meeting.started frame for the target meeting with a two-entry
roster issues exactly two invite calls, one per entry, in roster order,
whatever the outcome of each PATCH request; in particular a failing first
invitation cannot suppress the second. -/
theorem started_two_invites_in_order (cfg : Config) (o : Oracle)
    (nameA phoneA nameB phoneB : String) (user topic : Json)
    (hroster : cfg.participants = [(nameA, phoneA), (nameB, phoneB)]) :
    (process_meeting_started_event cfg o
       (mkEventContent "meeting.started" (.str cfg.meeting_id) user topic)).1
      = [Effect.placeCall (.str cfg.meeting_id) nameA phoneA,
         Effect.placeCall (.str cfg.meeting_id) nameB phoneB] := by
  simp [process_meeting_started_event, extractObjectId_mk, Json.eqStr,
        hroster, place_call_fst]

/-- Witness for C2 at an oracle whose PATCH raises on the first entry. -/
theorem started_two_invites_in_order_witness :
    (process_meeting_started_event pairConfig failFirstOracle
       (mkEventContent "meeting.started" (Json.str pairConfig.meeting_id)
          Json.null Json.null)).1
      = [Effect.placeCall (Json.str pairConfig.meeting_id) "First Oncall" "15550000001",
         Effect.placeCall (Json.str pairConfig.meeting_id) "Second Oncall" "15550000002"] :=
  started_two_invites_in_order pairConfig failFirstOracle "First Oncall" "15550000001"
    "Second Oncall" "15550000002" Json.null Json.null rfl

/-- C7: a meeting.started frame whose meeting id differs from the
configured target id issues no invitation: the effect list is empty, so
place_call is never invoked. -/
theorem started_nonmatching_no_invites (cfg : Config) (o : Oracle)
    (mid user topic : Json) (hid : mid.eqStr cfg.meeting_id = false) :
    (process_meeting_started_event cfg o
       (mkEventContent "meeting.started" mid user topic)).1 = [] := by
  simp [process_meeting_started_event, extractObjectId_mk, hid]

/-- Witness for C7 at a non-target meeting id. -/
theorem started_nonmatching_no_invites_witness :
    (process_meeting_started_event defaultConfig oracleBase
       (mkEventContent "meeting.started" (Json.str "99999999999")
          Json.null Json.null)).1 = [] :=
  started_nonmatching_no_invites defaultConfig oracleBase (Json.str "99999999999")
    Json.null Json.null (by decide)

/-- C3 counterexample: routing a concrete well-formed heartbeat-response
frame issues zero outbound calls but writes three log records, so the log
count is not one as the claim states. -/
theorem heartbeat_single_log_counterexample :
    (process_message defaultConfig hbOracle "hb").1 = []
    ∧ (process_message defaultConfig hbOracle "hb").2.length = 3
    ∧ ¬ ((process_message defaultConfig hbOracle "hb").2.length = 1) := by
  refine ⟨rfl, rfl, ?_⟩
  decide

/-- C3 (amended): routing a well-formed heartbeat-response frame issues
zero outbound calls and writes exactly three log records, the module
receipt, the frame dump, and exactly one acknowledgement-flag observation. -/
theorem heartbeat_route_three_logs (cfg : Config) (o : Oracle) (msg : String)
    (fields : List (String × Json))
    (hparse : o.parseJson msg = some (.obj fields))
    (hmod : lookupField fields "module" = some (.str "heartbeat")) :
    process_message cfg o msg
      = ([], [.moduleReceived (some (.str "heartbeat")), .frameDump (.obj fields),
              .heartbeatResponse (lookupField fields "success")]) := by
  simp [process_message, hparse, hmod, optEqStr, Json.eqStr]

/-- Witness for the amended C3 at the concrete heartbeat frame. -/
theorem heartbeat_route_three_logs_witness :
    process_message defaultConfig hbOracle "hb"
      = ([], [LogMsg.moduleReceived (some (Json.str "heartbeat")),
              LogMsg.frameDump hbFrame,
              LogMsg.heartbeatResponse (some (Json.bool true))]) :=
  heartbeat_route_three_logs defaultConfig hbOracle "hb"
    [("module", Json.str "heartbeat"), ("success", Json.bool true)] rfl rfl

/-- C5: malformed JSON at the outer layer, and a message frame whose inner
content string is malformed, never escape the router: it returns normally
with an empty effect list, the error logged, and the frame dropped. -/
theorem malformed_json_dropped (cfg : Config) (o : Oracle) (msg : String) :
    (o.parseJson msg = none →
       process_message cfg o msg = ([], [.parseOuterError]))
    ∧ (∀ fields s, o.parseJson msg = some (.obj fields) →
         lookupField fields "module" = some (.str "message") →
         lookupField fields "content" = some (.str s) →
         o.parseJson s = none →
         process_message cfg o msg
           = ([], [.moduleReceived (some (.str "message")), .frameDump (.obj fields),
                   .parseContentError])) := by
  constructor
  · intro hparse
    simp [process_message, hparse]
  · intro fields s hparse hmod hcontent hinner
    simp [process_message, hparse, hmod, hcontent, hinner, optEqStr, Json.eqStr]

/-- Witness for C5 at an oracle for which every parse fails. -/
theorem malformed_json_dropped_witness :
    process_message defaultConfig oracleBase "this is not json"
      = ([], [LogMsg.parseOuterError]) :=
  (malformed_json_dropped defaultConfig oracleBase "this is not json").1 rfl

/-- C6: a refresh that acquires a (non-empty) token stores it; a refresh
whose exchange fails, or yields the empty-string failure sentinel of
get_access_token, leaves the stored credential unchanged. -/
theorem refresh_token_idempotent_on_failure (current t : String) :
    (t ≠ "" → (refresh_token current (some t)).1 = t)
    ∧ (refresh_token current none).1 = current
    ∧ (refresh_token current (some "")).1 = current := by
  refine ⟨fun ht => ?_, rfl, rfl⟩
  simp [refresh_token, get_access_token, ht]

/-- Witness for C6 at concrete old and new tokens. -/
theorem refresh_token_idempotent_on_failure_witness :
    (refresh_token "oldtoken" (some "newtoken")).1 = "newtoken"
    ∧ (refresh_token "oldtoken" none).1 = "oldtoken" :=
  ⟨(refresh_token_idempotent_on_failure "oldtoken" "newtoken").1 (by decide),
   (refresh_token_idempotent_on_failure "oldtoken" "newtoken").2.1⟩

/-- C8: the heartbeat sender is total in all three situations: with no
WebSocket handle it logs a warning and attempts no send; a raising send is
caught and logged as an error; a successful send is logged as sent. -/
theorem send_heartbeat_never_crashes (send : SendResult) :
    send_heartbeat false send = (false, [LogMsg.heartbeatNotConnected])
    ∧ send_heartbeat true SendResult.exn = (true, [LogMsg.heartbeatSendError])
    ∧ send_heartbeat true SendResult.sent = (true, [LogMsg.heartbeatSent]) :=
  ⟨rfl, rfl, rfl⟩

/-- C10: when the initial token acquisition fails, construction completes
(the exception is caught inside get_access_token, so the embedding is a
total function) with the stored credential equal to the empty string, and
run opens the stream with that empty token appended to the URL. -/
theorem init_failure_empty_token :
    init_access_token none = ""
    ∧ streamUrl (init_access_token none)
        = "wss://ws.zoom.us/ws?subscriptionId=blahblahblah&access_token=" :=
  ⟨rfl, by decide⟩

/-- C4 counterexample: with the token refreshed from t1 to t2 before a
transport failure, the reconnect still uses the URL built at run entry
from t1, while the specification wording demands the URL built from the
credential current at that moment, t2. -/
theorem connect_urls_counterexample :
    run_connect_urls "t1" [RunEvent.refresh (some "t2"), RunEvent.transportFailure]
      ≠ spec_connect_urls "t1" [RunEvent.refresh (some "t2"), RunEvent.transportFailure] := by
  decide

/-- C4 (amended): one invocation of run reads the credential once at entry
and builds the stream URL from it; the initial connect and every automatic
reconnect after a transport failure reuse that same URL, so a credential
refreshed during the run is not applied until run is entered again. -/
theorem run_connect_urls_fixed (token0 : String) (events : List RunEvent) :
    run_connect_urls token0 events
      = List.replicate (countTransportFailures events + 1) (streamUrl token0) := by
  have aux : ∀ (url : String) (evs : List RunEvent),
      run_reconnect_urls url evs = List.replicate (countTransportFailures evs) url := by
    intro url evs
    induction evs with
    | nil => rfl
    | cons e rest ih =>
      cases e <;>
        simp [run_reconnect_urls, countTransportFailures, ih, List.replicate_succ]
  simp [run_connect_urls, aux, List.replicate_succ]

end ZoomWS
